/-
Verification of the tool-dispatch server of the ai-testing-mcp repository
(src/src/index.ts) against its natural-language specification.

The TypeScript source is shallowly embedded: the request/response data
model, the stdio tool-call dispatcher, the HTTP request router, the
`runTests` handler, the file-system walker `getAllFiles`, and the
classifiers `isSourceFile` / `isTestFile` become executable Lean
definitions.  Asynchronous effects (file system, subprocess execution)
are passed in as explicit oracle parameters; a thrown JS exception is an
`Except.error` carrying the exception message.
-/
import Mathlib

namespace AITestingMCP

/-! ## Data model (spec §3)

`ContentBlock`, `ToolCallResult` and `Envelope` mirror the MCP content
blocks, the `{ content: [...] }` value returned by every tool handler,
and the spec's ProtocolEnvelope (Success carrying a result, or Failure
carrying a numeric code and a message). -/

/-- One typed content block; this server only ever emits `text` blocks. -/
inductive ContentBlock where
  | text (s : String)
deriving DecidableEq, Repr

/-- The `{ content: [...] }` object every handler returns (spec ToolCallResult). -/
structure ToolCallResult where
  content : List ContentBlock
deriving DecidableEq, Repr

/-- The spec's ProtocolEnvelope: Success with a result, or Failure with code and message. -/
inductive Envelope where
  | success (r : ToolCallResult)
  | failure (code : Int) (message : String)
deriving DecidableEq, Repr

/-- Modelled from the spec: the MCP SDK server (a dependency, not under
src/) turns the value returned by a registered request handler into a
Success envelope, and an exception thrown by the handler into a Failure
envelope carrying the exception's message (spec §7: internal exceptions
are "caught at the Dispatcher boundary and downgraded to a Failure
envelope carrying the exception's message"). -/
def sdkWrap : Except String ToolCallResult → Envelope
  | .ok r => .success r
  | .error e => .failure (-32603) e

/-- Tool-call arguments: the JSON object passed as `arguments`,
abstracted to its key/value pairs (values as raw JSON text). -/
def Args : Type := List (String × String)

/-- A family of tool handlers: for a tool name and the (coerced)
arguments, either the `{ content: [...] }` value the method returns, or
the message of the exception it throws.  This abstracts the seven
`this.<method>(...)` calls of the class. -/
def Handlers : Type := String → Args → Except String ToolCallResult

/-! ## Tool registry (src/src/index.ts lines 56-197 and 751-812)

The two `tools/list` literals, transcribed descriptor by descriptor. -/

/-- A property of a tool's input schema: field name, JSON type tag, description. -/
structure SchemaProperty where
  name : String
  type : String
  description : String
deriving DecidableEq, Repr

/-- A tool's `inputSchema` object. -/
structure InputSchema where
  type : String
  properties : List SchemaProperty
  required : List String
deriving DecidableEq, Repr

/-- A tool descriptor as served by `tools/list`. -/
structure ToolDescriptor where
  name : String
  description : String
  inputSchema : InputSchema
deriving DecidableEq, Repr

/-- The descriptor list of the stdio adapter's ListTools handler
(index.ts lines 56-197): seven tools. -/
def stdioToolsList : List ToolDescriptor :=
  [ { name := "analyze_codebase"
    , description := "Analyze project structure and identify testable components"
    , inputSchema :=
      { type := "object"
      , properties := [⟨"projectPath", "string", "Path to the project directory"⟩]
      , required := ["projectPath"] } }
  , { name := "generate_unit_tests"
    , description := "Generate unit tests for specific functions or components"
    , inputSchema :=
      { type := "object"
      , properties :=
        [ ⟨"filePath", "string", "Path to the file to test"⟩
        , ⟨"functionName", "string", "Specific function to test (optional)"⟩
        , ⟨"testFramework", "string", "Testing framework to use (jest, mocha, pytest, etc.)"⟩ ]
      , required := ["filePath"] } }
  , { name := "generate_integration_tests"
    , description := "Generate integration tests for API endpoints"
    , inputSchema :=
      { type := "object"
      , properties :=
        [ ⟨"projectPath", "string", "Path to the project directory"⟩
        , ⟨"apiSpec", "string", "API specification or documentation"⟩ ]
      , required := ["projectPath"] } }
  , { name := "run_tests"
    , description := "Execute tests and return results"
    , inputSchema :=
      { type := "object"
      , properties :=
        [ ⟨"projectPath", "string", "Path to the project directory"⟩
        , ⟨"testPattern", "string", "Test file pattern or specific test to run"⟩
        , ⟨"framework", "string", "Test framework (auto-detected if not specified)"⟩ ]
      , required := ["projectPath"] } }
  , { name := "analyze_test_results"
    , description := "Analyze test results and provide insights"
    , inputSchema :=
      { type := "object"
      , properties :=
        [ ⟨"testOutput", "string", "Raw test output to analyze"⟩
        , ⟨"projectPath", "string", "Path to the project directory"⟩ ]
      , required := ["testOutput"] } }
  , { name := "suggest_fixes"
    , description := "Analyze failing tests and suggest code fixes"
    , inputSchema :=
      { type := "object"
      , properties :=
        [ ⟨"failureOutput", "string", "Test failure output"⟩
        , ⟨"sourceCode", "string", "Source code that failed"⟩
        , ⟨"testCode", "string", "Test code that failed"⟩ ]
      , required := ["failureOutput"] } }
  , { name := "setup_testing_framework"
    , description := "Initialize testing framework in a project"
    , inputSchema :=
      { type := "object"
      , properties :=
        [ ⟨"projectPath", "string", "Path to the project directory"⟩
        , ⟨"framework", "string", "Testing framework to set up (jest, mocha, pytest, etc.)"⟩
        , ⟨"language", "string", "Programming language (javascript, python, go, etc.)"⟩ ]
      , required := ["projectPath", "framework", "language"] } } ]

/-- The descriptor list of the HTTP adapter's `tools/list` branch
(index.ts lines 751-812): only three tools. -/
def httpToolsList : List ToolDescriptor :=
  [ { name := "analyze_codebase"
    , description := "Analyze project structure and identify testable components"
    , inputSchema :=
      { type := "object"
      , properties := [⟨"projectPath", "string", "Path to the project directory"⟩]
      , required := ["projectPath"] } }
  , { name := "generate_unit_tests"
    , description := "Generate unit tests for specific functions or components"
    , inputSchema :=
      { type := "object"
      , properties :=
        [ ⟨"filePath", "string", "Path to the file to test"⟩
        , ⟨"functionName", "string", "Specific function to test (optional)"⟩
        , ⟨"testFramework", "string", "Testing framework to use (jest, mocha, pytest, etc.)"⟩ ]
      , required := ["filePath"] } }
  , { name := "run_tests"
    , description := "Execute tests and return results"
    , inputSchema :=
      { type := "object"
      , properties :=
        [ ⟨"projectPath", "string", "Path to the project directory"⟩
        , ⟨"testPattern", "string", "Test file pattern or specific test to run"⟩
        , ⟨"framework", "string", "Test framework (auto-detected if not specified)"⟩ ]
      , required := ["projectPath"] } } ]

/-! ## The stdio CallTool dispatcher (index.ts lines 199-264)

`if (!args) throw` sits before the `try`, so a missing-arguments
exception escapes to the SDK; every exception raised inside the `try`
(handler failures and the `default: throw new Error('Unknown tool')`)
is caught and converted into a `{ content: [text] }` value.  The second
component of the result records which tool handlers were invoked. -/

/-- The `{ content: [{type:'text', text: 'Error executing <name>: <msg>'}] }`
value built by the catch block of the CallTool handler. -/
def catchContent (name msg : String) : ToolCallResult :=
  ⟨[.text ("Error executing " ++ name ++ ": " ++ msg)]⟩

/-- Run one tool handler under the CallTool catch block: its exception
becomes a `catchContent` text result, and its invocation is recorded. -/
def runHandlerCaught (H : Handlers) (name : String) (a : Args) :
    Except String ToolCallResult × List String :=
  match H name a with
  | .ok r => (.ok r, [name])
  | .error e => (.ok (catchContent name e), [name])

/-- The CallTool request handler registered on the stdio server
(index.ts lines 199-264).  Returns what the handler returns to the SDK
(`.error` = exception escaping the handler) together with the list of
tool handlers that were invoked. -/
def stdioCallTool (H : Handlers) (name : String) (args : Option Args) :
    Except String ToolCallResult × List String :=
  match args with
  | none => (.error "Missing arguments", [])
  | some a =>
    if name = "analyze_codebase" then runHandlerCaught H name a
    else if name = "generate_unit_tests" then runHandlerCaught H name a
    else if name = "generate_integration_tests" then runHandlerCaught H name a
    else if name = "run_tests" then runHandlerCaught H name a
    else if name = "analyze_test_results" then runHandlerCaught H name a
    else if name = "suggest_fixes" then runHandlerCaught H name a
    else if name = "setup_testing_framework" then runHandlerCaught H name a
    else (.ok (catchContent name ("Unknown tool: " ++ name)), [])

/-- The seven `case` labels of the CallTool switch (equal to the
registry's name set). -/
def registeredToolNames : List String :=
  [ "analyze_codebase", "generate_unit_tests", "generate_integration_tests"
  , "run_tests", "analyze_test_results", "suggest_fixes", "setup_testing_framework" ]

/-! ## The HTTP adapter (index.ts lines 698-924)

A parsed JSON-RPC request body, the JSON-RPC response bodies the adapter
can produce, and the routing of `createServer`'s request callback. -/

/-- A JSON-RPC `id` value (number, string, or JSON null). -/
inductive JsonId where
  | num (n : Int)
  | str (s : String)
  | null
deriving DecidableEq, Repr

/-- The JS expression `request.id || null`: an absent id, and any falsy
id value (`0`, `""`, `null`), collapse to JSON null. -/
def idOrNull : Option JsonId → JsonId
  | none => .null
  | some (.num n) => if n = 0 then .null else .num n
  | some (.str s) => if s = "" then .null else .str s
  | some .null => .null

/-- The `params` object of a `tools/call` request. -/
structure RpcParams where
  name : String
  arguments : Option Args

/-- A parsed JSON-RPC request body. -/
structure RpcRequest where
  method : String
  params : Option RpcParams
  id : Option JsonId

/-- The `result` values the HTTP adapter's method chain can produce. -/
inductive RpcResult where
  /-- `initialize`: protocol version / capabilities / serverInfo metadata. -/
  | initializeResult
  /-- `tools/list`: `{ tools: [...] }`. -/
  | toolsList (tools : List ToolDescriptor)
  /-- `tools/call`: a tool handler's `{ content: [...] }` value. -/
  | toolCall (r : ToolCallResult)
  /-- `ping` / `initialized`: `{}`. -/
  | emptyResult
deriving DecidableEq, Repr

/-- A response body written by the HTTP adapter. -/
inductive HttpBody where
  /-- `res.end()` with no payload (the OPTIONS short-circuit). -/
  | empty
  /-- A JSON-RPC 2.0 success envelope `{jsonrpc, result, id}`. -/
  | rpcResult (id : JsonId) (result : RpcResult)
  /-- A JSON-RPC 2.0 error envelope `{jsonrpc, error: {code, message}, id}`. -/
  | rpcError (id : JsonId) (code : Int) (message : String)
  /-- The static GET status document. -/
  | statusDoc
  /-- `{authenticated: true, ...}` from POST /auth. -/
  | authOk
  /-- `{authenticated: false, ...}` from POST /auth. -/
  | authFail
  /-- `{error: 'Not found'}`. -/
  | notFound
deriving DecidableEq, Repr

/-- Handling of a parsed JSON-RPC body in the POST-to-MCP branch
(index.ts lines 733-872): the method chain, with every exception caught
and turned into a status-500 `{code: -32000}` error envelope whose id is
the literal `null`.  Returns `((status, body), invoked handlers)`. -/
def httpHandleBody (H : Handlers) (req : RpcRequest) :
    (Nat × HttpBody) × List String :=
  let step : Except String RpcResult × List String :=
    if req.method = "initialize" then (.ok .initializeResult, [])
    else if req.method = "tools/list" then (.ok (.toolsList httpToolsList), [])
    else if req.method = "tools/call" then
      match req.params with
      | none =>
        (.error "Cannot destructure property 'name' of 'request.params' as it is undefined.", [])
      | some p =>
        match p.arguments with
        | none => (.error "Missing arguments", [])
        | some a =>
          if p.name = "analyze_codebase" then ((H p.name a).map .toolCall, [p.name])
          else if p.name = "generate_unit_tests" then ((H p.name a).map .toolCall, [p.name])
          else if p.name = "run_tests" then ((H p.name a).map .toolCall, [p.name])
          else (.error ("Unknown tool: " ++ p.name), [])
    else if req.method = "ping" then (.ok .emptyResult, [])
    else if req.method = "initialized" then (.ok .emptyResult, [])
    else (.error ("Unsupported method: " ++ req.method), [])
  match step with
  | (.ok res, inv) => ((200, .rpcResult (idOrNull req.id) res), inv)
  | (.error e, inv) => ((500, .rpcError .null (-32000) e), inv)

/-! ## Authentication (index.ts lines 682-696) and routing (698-917) -/

/-- Does `sub` occur as a contiguous run in `s`?  (Helper for JS
`String.prototype.includes`.) -/
def charsInclude (sub : List Char) : List Char → Bool
  | [] => sub.isEmpty
  | c :: t => sub.isPrefixOf (c :: t) || charsInclude sub t

/-- JS `str.includes(sub)`. -/
def strIncludes (s sub : String) : Bool :=
  charsInclude sub.toList s.toList

/-- JS `str.startsWith(sub)`. -/
def strStartsWith (s sub : String) : Bool :=
  sub.toList.isPrefixOf s.toList

/-- JS `str.endsWith(sub)`. -/
def strEndsWith (s sub : String) : Bool :=
  sub.toList.isSuffixOf s.toList

/-- ASCII lower-casing of one character (what `toLowerCase` does on the
ASCII file paths this code handles). -/
def charLower (c : Char) : Char :=
  if 'A' ≤ c ∧ c ≤ 'Z' then Char.ofNat (c.toNat + 32) else c

/-- JS `str.toLowerCase()` on ASCII text. -/
def strToLower (s : String) : String :=
  String.mk (s.toList.map charLower)

/-- The configured API key: `process.env.MCP_API_KEY || 'default-dev-key'`
(an unset or empty environment value falls back to the default). -/
def configuredApiKey (envKey : Option String) : String :=
  match envKey with
  | none => "default-dev-key"
  | some k => if k = "" then "default-dev-key" else k

/-- `authenticateRequest` (index.ts lines 682-696): false without an
Authorization header; otherwise the header, with a leading `Bearer `
stripped (`authHeader.slice(7)`), must equal the configured key. -/
def authenticateRequest (authHeader : Option String) (envKey : Option String) : Bool :=
  let apiKey := configuredApiKey envKey
  match authHeader with
  | none => false
  | some h =>
    let token := if strStartsWith h "Bearer " then h.drop 7 else h
    token = apiKey

/-- An inbound HTTP request as the routing code sees it: method, url,
Authorization header, and the POST body (`none` = body that fails
`JSON.parse`). -/
structure HttpRequest where
  method : String
  url : Option String
  authorization : Option String
  body : Option RpcRequest

/-- The response the adapter writes: status code, headers set, body,
and (instrumentation) the tool handlers invoked while producing it. -/
structure HttpOut where
  status : Nat
  headers : List (String × String)
  body : HttpBody
  invoked : List String
deriving Repr

/-- The three CORS headers set unconditionally at the top of the
request callback (index.ts lines 701-703). -/
def corsHeaders : List (String × String) :=
  [ ("Access-Control-Allow-Origin", "*")
  , ("Access-Control-Allow-Methods", "GET, POST, OPTIONS")
  , ("Access-Control-Allow-Headers", "Content-Type, Authorization, X-API-Key") ]

/-- `req.url === '/mcp' || req.url === '/' || req.url?.includes('mcp')`. -/
def isMcpPostUrl (url : Option String) : Bool :=
  url = some "/mcp" || url = some "/" || (match url with
    | some u => strIncludes u "mcp"
    | none => false)

/-- The `createServer` request callback (index.ts lines 699-917): CORS
headers, the OPTIONS short-circuit, the POST-to-MCP branch (whose
bearer-token gate is commented out, so it never consults the
Authorization header), the GET status/404 branch, the POST /auth test
branch, and the final 404. -/
def handleRequest (H : Handlers) (envKey : Option String) (req : HttpRequest) : HttpOut :=
  if req.method = "OPTIONS" then
    { status := 200, headers := corsHeaders, body := .empty, invoked := [] }
  else if req.method = "POST" && isMcpPostUrl req.url then
    match req.body with
    | none =>
      { status := 500, headers := corsHeaders
      , body := .rpcError .null (-32000) "Unexpected end of JSON input", invoked := [] }
    | some rpc =>
      let ((st, b), inv) := httpHandleBody H rpc
      { status := st, headers := corsHeaders, body := b, invoked := inv }
  else if req.method = "GET" then
    if (match req.url with | some u => strIncludes u "mcp" | none => false)
        || req.url = some "/" then
      { status := 200, headers := corsHeaders, body := .statusDoc, invoked := [] }
    else
      { status := 404, headers := corsHeaders, body := .notFound, invoked := [] }
  else if req.method = "POST" && req.url = some "/auth" then
    if authenticateRequest req.authorization envKey then
      { status := 200, headers := corsHeaders, body := .authOk, invoked := [] }
    else
      { status := 401, headers := corsHeaders, body := .authFail, invoked := [] }
  else
    { status := 404, headers := corsHeaders, body := .notFound, invoked := [] }

/-! ## The `run_tests` handler (index.ts lines 370-438)

`execAsync(command, {cwd, timeout: 60000})` is modelled by an oracle
from (command line, cwd, timeout) to an outcome: the promise resolves
with `(stdout, stderr)` exactly when the child exits 0 within the
timeout, and rejects with an error message on non-zero exit, I/O error,
or timeout (Node kills the child when the `timeout` option elapses).
The whole handler body sits in a `try` whose `catch` builds a
`success:false` TestResult, so `runTests` never throws. -/

/-- The `TestResult` record (index.ts lines 18-24); `coverage` and
`suggestions` are never assigned by `runTests` and are omitted. -/
structure TestResult where
  success : Bool
  output : String
  errors : Option String
deriving DecidableEq, Repr

/-- Outcome of one `execAsync` call. -/
inductive ExecOutcome where
  /-- Promise resolved: the child exited 0 within the timeout. -/
  | completed (stdout stderr : String)
  /-- Promise rejected: non-zero exit, I/O error, or timeout (in which
  case Node has killed the child).  Carries `error.message`. -/
  | failed (message : String)
deriving DecidableEq, Repr

/-- An `execAsync` oracle: command line, working directory, timeout in
milliseconds. -/
def Exec : Type := String → String → Nat → ExecOutcome

/-- JSON string escaping as performed by `JSON.stringify` on the
characters this code can produce. -/
def jsonEscapeChar (c : Char) : String :=
  if c = '"' then "\\\""
  else if c = '\\' then "\\\\"
  else if c = '\n' then "\\n"
  else if c = '\r' then "\\r"
  else if c = '\t' then "\\t"
  else if c.toNat < 32 then "\\u" ++ (Nat.toDigits 16 c.toNat).asString.leftpad 4 '0'
  else String.singleton c

/-- JSON string escaping lifted to strings. -/
def jsonEscape (s : String) : String :=
  String.join (s.toList.map jsonEscapeChar)

/-- `JSON.stringify(result, null, 2)` for a `TestResult` whose set
fields are `success`, `output` and (when defined) `errors`. -/
def stringifyTestResult (r : TestResult) : String :=
  "\x7b\n  \"success\": " ++ (if r.success then "true" else "false")
    ++ ",\n  \"output\": \"" ++ jsonEscape r.output ++ "\""
    ++ (match r.errors with
        | none => ""
        | some e => ",\n  \"errors\": \"" ++ jsonEscape e ++ "\"")
    ++ "\n\x7d"

/-- The `{ content: [{type:'text', text: JSON.stringify(result, null, 2)}] }`
value `runTests` returns. -/
def testResultContent (r : TestResult) : ToolCallResult :=
  ⟨[.text (stringifyTestResult r)]⟩

/-- `if (!framework) framework = await this.detectTestFramework(...)`:
an absent or empty (falsy) `framework` argument is replaced by the
detection result. -/
def effectiveFramework (framework : Option String) (detected : String) : String :=
  match framework with
  | none => detected
  | some f => if f = "" then detected else f

/-- The `switch (framework)` of `runTests` (index.ts lines 380-401):
command and argument list per framework, the pattern appended only when
truthy (non-empty), or the thrown `Unsupported test framework` message. -/
def commandFor (fw : String) (testPattern : Option String) :
    Except String (String × List String) :=
  let pat : List String :=
    match testPattern with
    | none => []
    | some p => if p = "" then [] else [p]
  if fw = "jest" then .ok ("npx", ["jest"] ++ pat ++ ["--verbose", "--coverage"])
  else if fw = "pytest" then .ok ("python", ["-m", "pytest"] ++ pat ++ ["-v", "--cov=."])
  else if fw = "go" then .ok ("go", ["test"] ++ pat ++ ["-v", "-cover"])
  else .error ("Unsupported test framework: " ++ fw)

/-- `runTests` (index.ts lines 370-438).  `detected` is the value
`detectTestFramework(projectPath)` would return (a file-system probe).
Returns the content result together with the list of `execAsync`
invocations (command line, cwd, timeout) that were made. -/
def runTests (ex : Exec) (detected : String) (projectPath : String)
    (testPattern : Option String) (framework : Option String) :
    ToolCallResult × List (String × String × Nat) :=
  let fw := effectiveFramework framework detected
  match commandFor fw testPattern with
  | .error e => (testResultContent ⟨false, "", some e⟩, [])
  | .ok (command, args) =>
    let line := command ++ " " ++ String.intercalate " " args
    match ex line projectPath 60000 with
    | .completed stdout stderr =>
      (testResultContent ⟨stderr = "", stdout, some stderr⟩, [(line, projectPath, 60000)])
    | .failed msg =>
      (testResultContent ⟨false, "", some msg⟩, [(line, projectPath, 60000)])

/-! ## The file-system walker `getAllFiles` (index.ts lines 441-456)

The directory tree is a list of named entries; `getAllFiles` recurses
into a subdirectory only when its name does not start with `.` and is
not `node_modules`, and pushes every regular file it reaches (with no
condition on the file's own name). -/

/-- A directory entry: a regular file or a subdirectory with its
entries (in `readdir` order). -/
inductive FsEntry where
  | file (name : String)
  | dir (name : String) (children : List FsEntry)

/-- `join(dir, item)` for the plain relative names this walker builds. -/
def pjoin (d item : String) : String := d ++ "/" ++ item

/-- The condition under which `getAllFiles` recurses into directory
`item`: `!item.startsWith('.') && item !== 'node_modules'`. -/
def enterDir (item : String) : Bool :=
  !strStartsWith item "." && item != "node_modules"

/-- `getAllFiles(dir)` (index.ts lines 441-456) applied to the entries
of `dir`: files are appended in traversal order, subdirectories are
walked depth-first when `enterDir` holds and skipped entirely
otherwise. -/
def getAllFiles (d : String) : List FsEntry → List String
  | [] => []
  | .file n :: rest => pjoin d n :: getAllFiles d rest
  | .dir n cs :: rest =>
    (if enterDir n then getAllFiles (pjoin d n) cs else []) ++ getAllFiles d rest

/-- All regular files of a tree, each with the list of directory names
between the root and the file (no exclusions): the reference against
which `getAllFiles` is characterised. -/
def allFilesWithDirs : List FsEntry → List (List String × String)
  | [] => []
  | .file n :: rest => ([], n) :: allFilesWithDirs rest
  | .dir n cs :: rest =>
    (allFilesWithDirs cs).map (fun df => (n :: df.1, df.2)) ++ allFilesWithDirs rest

/-- Re-join a (directory chain, filename) pair under root `d`. -/
def joinChain (d : String) (df : List String × String) : String :=
  pjoin (df.1.foldl pjoin d) df.2

/-! ## File classification (index.ts lines 458-470) and the
`analyzeCodebase` classification loop (lines 305-327) -/

/-- The final path component (`basename`): the characters after the
last `/`. -/
def basename (p : String) : String :=
  String.mk ((p.toList.reverse.takeWhile (· ≠ '/')).reverse)

/-- `extname` (node:path): the substring of the basename from its last
`.` to the end; empty when the basename has no `.` or only a leading
one. -/
def extname (p : String) : String :=
  let b := (basename p).toList
  let k := (b.reverse.takeWhile (· ≠ '.')).length
  if k = b.length then ""
  else if b.length - k - 1 = 0 then ""
  else String.mk (b.drop (b.length - k - 1))

/-- `isTestFile` (index.ts lines 464-470): the lower-cased path contains
`test` or `spec`, or ends in one of the listed test-file suffixes. -/
def isTestFile (filePath : String) : Bool :=
  let filename := strToLower filePath
  strIncludes filename "test" || strIncludes filename "spec"
    || strEndsWith filename ".test.js" || strEndsWith filename ".spec.js"
    || strEndsWith filename ".test.ts" || strEndsWith filename ".spec.ts"
    || strEndsWith filename "_test.py" || strEndsWith filename "_test.go"

/-- `isSourceFile` (index.ts lines 458-462): a recognised source
extension and not a test file. -/
def isSourceFile (filePath : String) : Bool :=
  [".js", ".ts", ".py", ".go", ".java", ".cpp", ".c"].contains (extname filePath)
    && !(isTestFile filePath)

/-- The classification loop of `analyzeCodebase` (index.ts lines
305-327) restricted to the two push statements: the
`testableComponents` and `existingTests` lists accumulated over the
walker's files. -/
def classifyFiles (files : List String) : List String × List String :=
  files.foldl
    (fun acc f =>
      ( if isSourceFile f then acc.1 ++ [f] else acc.1
      , if isTestFile f then acc.2 ++ [f] else acc.2 ))
    ([], [])

/-- A concrete handler family used to instantiate dispatch theorems:
every tool returns an empty content list. -/
def trivialHandlers : Handlers := fun _ _ => .ok ⟨[]⟩

/-! ## Helper lemmas -/

theorem classifyFiles_foldl (files : List String) :
    ∀ acc : List String × List String,
      files.foldl
        (fun acc f =>
          ( if isSourceFile f then acc.1 ++ [f] else acc.1
          , if isTestFile f then acc.2 ++ [f] else acc.2 ))
        acc
      = (acc.1 ++ files.filter isSourceFile, acc.2 ++ files.filter isTestFile) := by
  induction files with
  | nil => simp
  | cons f rest ih =>
    intro acc
    simp only [List.foldl_cons, ih, List.filter_cons]
    by_cases h1 : isSourceFile f <;> by_cases h2 : isTestFile f <;> simp [h1, h2]

theorem classifyFiles_eq (files : List String) :
    classifyFiles files = (files.filter isSourceFile, files.filter isTestFile) := by
  simpa using classifyFiles_foldl files ([], [])

theorem isSourceFile_not_isTestFile {p : String} (h : isSourceFile p = true) :
    isTestFile p = false := by
  simp only [isSourceFile, Bool.and_eq_true, Bool.not_eq_true'] at h
  exact h.2

/-! ## Claim theorems -/

/-- C5: a call-style request whose `arguments` field is absent yields,
on the stdio path, the `Missing arguments` exception thrown before the
`try` (which the SDK turns into a Failure envelope) and, on the HTTP
path, the status-500 `-32000` error envelope with the same message; in
both cases no tool handler is invoked. -/
theorem C5_missing_args (H : Handlers) (name : String) (i : Option JsonId) :
    stdioCallTool H name none = (.error "Missing arguments", [])
    ∧ sdkWrap (stdioCallTool H name none).1 = Envelope.failure (-32603) "Missing arguments"
    ∧ httpHandleBody H ⟨"tools/call", some ⟨name, none⟩, i⟩
        = ((500, .rpcError .null (-32000) "Missing arguments"), []) := by
  refine ⟨rfl, rfl, ?_⟩
  simp [httpHandleBody]

/-- C8: every OPTIONS request, whatever its path, gets status 200 with
the CORS headers, an empty body, and no handler invocation. -/
theorem C8_options (H : Handlers) (envKey : Option String) (req : HttpRequest)
    (h : req.method = "OPTIONS") :
    handleRequest H envKey req
      = { status := 200, headers := corsHeaders, body := .empty, invoked := [] } := by
  simp [handleRequest, h]

/-- Witness for `C8_options` at a concrete OPTIONS request. -/
theorem C8_options_witness :
    handleRequest trivialHandlers none ⟨"OPTIONS", some "/anything", none, none⟩
      = { status := 200, headers := corsHeaders, body := .empty, invoked := [] } :=
  C8_options trivialHandlers none ⟨"OPTIONS", some "/anything", none, none⟩ rfl

/-- C10: the `testableComponents` and `existingTests` lists built by the
classification loop of `analyzeCodebase` are disjoint, because
`isSourceFile` requires `isTestFile` to be false. -/
theorem C10_disjoint (files : List String) (p : String)
    (h : p ∈ (classifyFiles files).1) : p ∉ (classifyFiles files).2 := by
  rw [classifyFiles_eq] at h ⊢
  simp only [List.mem_filter] at h ⊢
  intro hc
  have := isSourceFile_not_isTestFile h.2
  rw [this] at hc
  exact Bool.false_ne_true hc.2

/-- Witness for `C10_disjoint`: `x/app.js` is classified as a source
file and therefore not among the test files. -/
theorem C10_disjoint_witness :
    "x/app.js" ∈ (classifyFiles ["x/app.js", "x/app.test.js"]).1
    ∧ "x/app.js" ∉ (classifyFiles ["x/app.js", "x/app.test.js"]).2 :=
  ⟨by decide, C10_disjoint ["x/app.js", "x/app.test.js"] "x/app.js" (by decide)⟩

/-- C1 counterexample: on the standard-stream path an unregistered tool
name does NOT produce a Failure envelope: the `default: throw` of the
CallTool switch is caught by the handler's own catch block, which
returns a `{ content: [...] }` value, so the SDK emits a Success
envelope. -/
theorem C1_counterexample :
    "bogus" ∉ registeredToolNames
    ∧ stdioCallTool trivialHandlers "bogus" (some [])
        = (.ok (catchContent "bogus" "Unknown tool: bogus"), [])
    ∧ sdkWrap (stdioCallTool trivialHandlers "bogus" (some [])).1
        = Envelope.success (catchContent "bogus" "Unknown tool: bogus") := by
  refine ⟨by decide, rfl, rfl⟩

/-- C1 amended: for a tool name outside the registry, no handler is
invoked on either path; the HTTP path returns a Failure envelope
(status 500, code -32000, `Unknown tool` message), while the stdio path
returns a Success envelope whose single text block reports
`Error executing <name>: Unknown tool: <name>`. -/
theorem C1_unknown_tool (H : Handlers) (name : String) (a : Args) (i : Option JsonId)
    (h : name ∉ registeredToolNames) :
    stdioCallTool H name (some a)
        = (.ok (catchContent name ("Unknown tool: " ++ name)), [])
    ∧ httpHandleBody H ⟨"tools/call", some ⟨name, some a⟩, i⟩
        = ((500, .rpcError .null (-32000) ("Unknown tool: " ++ name)), []) := by
  simp only [registeredToolNames, List.mem_cons, List.not_mem_nil, or_false, not_or] at h
  obtain ⟨h1, h2, h3, h4, h5, h6, h7⟩ := h
  constructor
  · simp [stdioCallTool, h1, h2, h3, h4, h5, h6, h7]
  · simp [httpHandleBody, h1, h2, h4]

/-- Witness for `C1_unknown_tool` at tool name `bogus`. -/
theorem C1_unknown_tool_witness :
    stdioCallTool trivialHandlers "bogus" (some [⟨"k", "v"⟩])
        = (.ok (catchContent "bogus" ("Unknown tool: " ++ "bogus")), [])
    ∧ httpHandleBody trivialHandlers ⟨"tools/call", some ⟨"bogus", some [⟨"k", "v"⟩]⟩, some (.num 2)⟩
        = ((500, .rpcError .null (-32000) ("Unknown tool: " ++ "bogus")), []) :=
  C1_unknown_tool trivialHandlers "bogus" [⟨"k", "v"⟩] (some (.num 2)) (by decide)

/-- C2: when every `execAsync` outcome is a rejection (non-zero exit,
I/O error, or timeout with the child killed), `runTests` returns a
plain `{ content: [...] }` value — wrapped by the SDK into a Success
envelope, never a Failure — whose payload is the failure-shaped
TestResult `success:false` carrying the error message; and every
`execAsync` invocation it makes passes the 60000 ms timeout. -/
theorem C2_run_tests_failure (ex : Exec) (detected pp : String)
    (tp fwa : Option String) (msg : String)
    (hfw : effectiveFramework fwa detected ∈ (["jest", "pytest", "go"] : List String))
    (hex : ∀ l c t, ex l c t = ExecOutcome.failed msg) :
    (runTests ex detected pp tp fwa).1 = testResultContent ⟨false, "", some msg⟩
    ∧ sdkWrap (.ok (runTests ex detected pp tp fwa).1)
        = Envelope.success (testResultContent ⟨false, "", some msg⟩)
    ∧ (runTests ex detected pp tp fwa).2.all (fun c => c.2.2 == 60000) = true := by
  simp only [List.mem_cons, List.not_mem_nil, or_false] at hfw
  have hcmd : ∃ c args, commandFor (effectiveFramework fwa detected) tp = .ok (c, args) := by
    rcases hfw with h | h | h <;> rw [h] <;> simp [commandFor]
  obtain ⟨c, args, hc⟩ := hcmd
  have hA : (runTests ex detected pp tp fwa).1 = testResultContent ⟨false, "", some msg⟩ := by
    simp [runTests, hc, hex]
  refine ⟨hA, by rw [hA]; rfl, ?_⟩
  simp [runTests, hc, hex]

/-- Witness for `C2_run_tests_failure`: jest framework, every exec
attempt rejecting with `Command failed`. -/
theorem C2_run_tests_failure_witness :
    (runTests (fun _ _ _ => ExecOutcome.failed "Command failed") "jest" "/p" none none).1
        = testResultContent ⟨false, "", some "Command failed"⟩
    ∧ sdkWrap (.ok (runTests (fun _ _ _ => ExecOutcome.failed "Command failed") "jest" "/p" none none).1)
        = Envelope.success (testResultContent ⟨false, "", some "Command failed"⟩)
    ∧ (runTests (fun _ _ _ => ExecOutcome.failed "Command failed") "jest" "/p" none none).2.all
        (fun c => c.2.2 == 60000) = true :=
  C2_run_tests_failure (fun _ _ _ => .failed "Command failed") "jest" "/p" none none
    "Command failed" (by decide) (fun _ _ _ => rfl)

/-- C9: when the subprocess completes within the timeout with exit code
0 (the promise resolves with `(stdout, stderr)`), the reported
TestResult's `success` field is true exactly when `stderr` is empty, so
a zero-exit run that wrote anything to stderr is reported as
`success:false`. -/
theorem C9_zero_exit_stderr (ex : Exec) (detected pp : String)
    (tp fwa : Option String) (out err : String)
    (hfw : effectiveFramework fwa detected ∈ (["jest", "pytest", "go"] : List String))
    (hex : ∀ l c t, ex l c t = ExecOutcome.completed out err) :
    ∃ r : TestResult,
      (runTests ex detected pp tp fwa).1 = testResultContent r
      ∧ (r.success = true ↔ err = "")
      ∧ r.output = out ∧ r.errors = some err := by
  simp only [List.mem_cons, List.not_mem_nil, or_false] at hfw
  have hcmd : ∃ c args, commandFor (effectiveFramework fwa detected) tp = .ok (c, args) := by
    rcases hfw with h | h | h <;> rw [h] <;> simp [commandFor]
  obtain ⟨c, args, hc⟩ := hcmd
  refine ⟨⟨decide (err = ""), out, some err⟩, ?_, by simp, rfl, rfl⟩
  simp [runTests, hc, hex]

/-- Witness for `C9_zero_exit_stderr`: a zero-exit jest run whose
stderr holds a warning is reported with `success:false`. -/
theorem C9_zero_exit_stderr_witness :
    (∃ r : TestResult,
      (runTests (fun _ _ _ => ExecOutcome.completed "ok" "warning") "jest" "/p" none none).1
          = testResultContent r
      ∧ (r.success = true ↔ ("warning" : String) = "")
      ∧ r.output = "ok" ∧ r.errors = some "warning") :=
  C9_zero_exit_stderr (fun _ _ _ => .completed "ok" "warning") "jest" "/p" none none
    "ok" "warning" (by decide) (fun _ _ _ => rfl)

/-- C3 counterexample: the two adapters do not serve the same
descriptor list: the stdio list has 7 descriptors but the HTTP
`tools/list` branch serves only 3. -/
theorem C3_counterexample :
    stdioToolsList.length = 7
    ∧ httpToolsList.length = 3
    ∧ httpToolsList ≠ stdioToolsList := by
  refine ⟨rfl, rfl, by decide⟩

/-- C3 amended: within one process lifetime each adapter serves a fixed
descriptor list, identical across repeated calls (the HTTP `tools/list`
branch returns the constant `httpToolsList` for every request and every
handler family); the stdio list has exactly 7 descriptors, while the
HTTP list has only 3, whose names form a proper subsequence of the
stdio names, so the two adapters' lists differ. -/
theorem C3_tools_list (H H' : Handlers) (r r' : RpcRequest)
    (h : r.method = "tools/list") (h' : r'.method = "tools/list") :
    (httpHandleBody H r).1.2 = .rpcResult (idOrNull r.id) (.toolsList httpToolsList)
    ∧ (httpHandleBody H' r').1.2 = .rpcResult (idOrNull r'.id) (.toolsList httpToolsList)
    ∧ stdioToolsList.length = 7
    ∧ httpToolsList.map ToolDescriptor.name
        = ["analyze_codebase", "generate_unit_tests", "run_tests"]
    ∧ (httpToolsList.map ToolDescriptor.name).Sublist (stdioToolsList.map ToolDescriptor.name)
    ∧ httpToolsList ≠ stdioToolsList := by
  refine ⟨?_, ?_, rfl, rfl, by decide, by decide⟩
  · simp [httpHandleBody, h]
  · simp [httpHandleBody, h']

/-- Witness for `C3_tools_list` at two concrete `tools/list` requests. -/
theorem C3_tools_list_witness :
    (httpHandleBody trivialHandlers ⟨"tools/list", none, some (.num 1)⟩).1.2
        = .rpcResult (idOrNull (some (.num 1))) (.toolsList httpToolsList)
    ∧ (httpHandleBody trivialHandlers ⟨"tools/list", none, none⟩).1.2
        = .rpcResult (idOrNull none) (.toolsList httpToolsList)
    ∧ stdioToolsList.length = 7
    ∧ httpToolsList.map ToolDescriptor.name
        = ["analyze_codebase", "generate_unit_tests", "run_tests"]
    ∧ (httpToolsList.map ToolDescriptor.name).Sublist (stdioToolsList.map ToolDescriptor.name)
    ∧ httpToolsList ≠ stdioToolsList :=
  C3_tools_list trivialHandlers trivialHandlers
    ⟨"tools/list", none, some (.num 1)⟩ ⟨"tools/list", none, none⟩ rfl rfl

/-- C4 counterexample: the HTTP error envelope is built with the
literal `id: null`, so the error response to an unsupported-method
request that carried id 2 does not echo that id. -/
theorem C4_counterexample :
    (httpHandleBody trivialHandlers ⟨"bogus", none, some (.num 2)⟩).1.2
        = HttpBody.rpcError JsonId.null (-32000) "Unsupported method: bogus"
    ∧ JsonId.null ≠ JsonId.num 2 := by
  refine ⟨rfl, by decide⟩

/-- C4 amended: a success response carries `request.id || null` (the
request's id with any falsy id — absent, 0, empty string or null —
collapsed to null), while an error response always carries the literal
null, regardless of the request's id. -/
theorem C4_id_echo (H : Handlers) (rpc : RpcRequest) :
    (∃ res, (httpHandleBody H rpc).1.2 = HttpBody.rpcResult (idOrNull rpc.id) res)
    ∨ (∃ c m, (httpHandleBody H rpc).1.2 = HttpBody.rpcError JsonId.null c m) := by
  unfold httpHandleBody
  dsimp only
  split
  · exact .inl ⟨_, rfl⟩
  · exact .inr ⟨_, _, rfl⟩

/-- C6: `authenticateRequest` rejects a missing Authorization header
and otherwise accepts exactly when the header value, with a leading
`Bearer ` stripped, equals the configured API key (`MCP_API_KEY` or the
`default-dev-key` fallback); and because the bearer-token gate in the
POST-to-MCP branch is commented out, the adapter's response on that
branch is the same whatever the Authorization header holds. -/
theorem C6_authentication (envKey : Option String) (hdr : String)
    (H : Handlers) (req : HttpRequest) (a1 a2 : Option String)
    (hpost : req.method = "POST") (hurl : isMcpPostUrl req.url = true) :
    authenticateRequest none envKey = false
    ∧ (authenticateRequest (some hdr) envKey = true
        ↔ (if strStartsWith hdr "Bearer " then hdr.drop 7 else hdr) = configuredApiKey envKey)
    ∧ handleRequest H envKey { req with authorization := a1 }
        = handleRequest H envKey { req with authorization := a2 } := by
  refine ⟨rfl, by simp [authenticateRequest], ?_⟩
  simp [handleRequest, hpost, hurl]

/-- Witness for `C6_authentication`: default key, a `Bearer`-prefixed
header, and a POST to `/mcp` answered identically with and without an
Authorization header. -/
theorem C6_authentication_witness :
    authenticateRequest none none = false
    ∧ (authenticateRequest (some "Bearer default-dev-key") none = true
        ↔ (if strStartsWith "Bearer default-dev-key" "Bearer "
            then ("Bearer default-dev-key").drop 7
            else "Bearer default-dev-key") = configuredApiKey none)
    ∧ handleRequest trivialHandlers none
        { method := "POST", url := some "/mcp", authorization := some "Bearer wrong"
        , body := none }
      = handleRequest trivialHandlers none
        { method := "POST", url := some "/mcp", authorization := none, body := none } :=
  C6_authentication none "Bearer default-dev-key" trivialHandlers
    ⟨"POST", some "/mcp", none, none⟩ (some "Bearer wrong") none rfl (by decide)

/-- C7 counterexample: `getAllFiles` does not exclude hidden files: a
dot-named regular file directly under the root is returned. -/
theorem C7_counterexample :
    strStartsWith ".env" "." = true
    ∧ getAllFiles "r" [FsEntry.file ".env"] = ["r/.env"] := by
  refine ⟨by decide, by simp [getAllFiles, pjoin]⟩

/-- C7 amended: `getAllFiles` returns exactly the regular files all of
whose ancestor directories below the root are non-hidden and not
`node_modules`; files under a hidden or `node_modules` directory never
appear, but a hidden (dot-named) regular file itself is returned like
any other file. -/
theorem C7_getAllFiles (entries : List FsEntry) (d : String) :
    getAllFiles d entries
      = ((allFilesWithDirs entries).filter (fun df => df.1.all enterDir)).map (joinChain d) := by
  induction d, entries using getAllFiles.induct with
  | case1 d => simp [getAllFiles, allFilesWithDirs]
  | case2 d n rest ih =>
    simp [getAllFiles, allFilesWithDirs, ih, joinChain, List.filter_cons]
  | case3 d n cs rest ih1 ih2 =>
    rw [getAllFiles, allFilesWithDirs]
    rw [List.filter_append, List.map_append, List.filter_map, List.map_map]
    rw [ih2]
    congr 1
    by_cases he : enterDir n
    · rw [if_pos he, ih1]
      have hp : ((fun df => df.1.all enterDir) ∘ fun df => (n :: df.1, df.2))
          = fun (df : List String × String) => df.1.all enterDir := by
        funext df
        simp [he]
      rw [hp]
      congr 1
    · rw [if_neg he]
      have hp : ((fun df => df.1.all enterDir) ∘ fun df => (n :: df.1, df.2))
          = fun (_ : List String × String) => false := by
        funext df
        simp [he]
      rw [hp]
      simp

end AITestingMCP
